import Mathlib

/-!
Shallow embedding of the alfred-ai-agent dispatch pipeline core:
credit ledger (`app/core/credit_manager.py`, `app/core/agent_engine.py`),
intent router (`app/core/router.py`), prompt compiler (`app/core/compiler.py`),
setup orchestrator (`app/core/setup.py`), bot pool (`app/core/bot_pool.py`)
and the webhook dispatch helper (`app/routers/webhooks.py`).

Database rows are modelled as Lean structures holding the persisted columns;
tables are either association functions keyed by the unique-keyed column
(credit accounts, agent configs: `client_id` carries a UNIQUE constraint) or
lists in insertion (creation) order (transactions, setup sessions, bot pool).
`datetime.utcnow()` timestamps are modelled as `Nat` values threaded in where
a claim depends on them and elided otherwise.  Awaited runtime calls are
modelled by passing the call's outcome (`Except`) as an explicit parameter.
-/

namespace Alfred

/-- Python `str.lower` restricted to ASCII case mapping, character by
character, as `"...".lower()` behaves on the ASCII keyword sets used here. -/
def lowerL : List Char → List Char
  | [] => []
  | c :: cs => c.toLower :: lowerL cs

/-- Python `message.lower()`. -/
def lower (s : String) : String := ⟨lowerL s.data⟩

/-- Helper for `pyIn`: does the haystack start with the needle. -/
def startsWithL : List Char → List Char → Bool
  | [], _ => true
  | _ :: _, [] => false
  | a :: as, b :: bs => a == b && startsWithL as bs

/-- Helper for `pyIn`: does the needle occur contiguously in the haystack. -/
def hasSubL (needle : List Char) : List Char → Bool
  | [] => startsWithL needle []
  | b :: bs => startsWithL needle (b :: bs) || hasSubL needle bs

/-- Python substring containment `needle in haystack` on `str`. -/
def pyIn (needle haystack : String) : Bool :=
  hasSubL needle.data haystack.data

/-! ## ConversationRouter (`app/core/router.py`) -/

/-- The `Intent` enum of `app/core/router.py`. -/
inductive Intent
  | SETUP
  | TASK
  | ACCOUNT
  | HELP
deriving DecidableEq, Repr

/-- `ConversationRouter.SETUP_KEYWORDS`. -/
def SETUP_KEYWORDS : List String :=
  ["connect", "add", "change", "configure", "set up", "link",
   "integrate", "setup", "install", "enable", "activate"]

/-- `ConversationRouter.ACCOUNT_KEYWORDS`. -/
def ACCOUNT_KEYWORDS : List String :=
  ["credits", "balance", "buy", "purchase", "payment",
   "subscription", "plan", "billing", "how many credits"]

/-- `ConversationRouter.HELP_KEYWORDS`. -/
def HELP_KEYWORDS : List String :=
  ["help", "what can you", "how do i", "how to", "?",
   "explain", "assist", "support"]

/-- `ConversationRouter.TASK_KEYWORDS` (declared in the source; never read by
`classify_intent`, which defaults to `TASK`). -/
def TASK_KEYWORDS : List String :=
  ["help me", "send", "find", "create", "book", "write",
   "make", "get", "show", "tell me", "do"]

/-- One `for keyword in kws: if keyword in message_lower` loop body. -/
def matchesAny (kws : List String) (message_lower : String) : Bool :=
  kws.any (fun k => pyIn k message_lower)

/-- `ConversationRouter.classify_intent`: lowercase the message, then check the
keyword sets in order SETUP, ACCOUNT, HELP, defaulting to TASK. -/
def classify_intent (message : String) : Intent :=
  let message_lower := lower message
  if matchesAny SETUP_KEYWORDS message_lower then .SETUP
  else if matchesAny ACCOUNT_KEYWORDS message_lower then .ACCOUNT
  else if matchesAny HELP_KEYWORDS message_lower then .HELP
  else .TASK

/-- The `handler_map` of `ConversationRouter.route`. -/
def handler_map : Intent → String
  | .SETUP => "SetupOrchestrator"
  | .TASK => "AgentEngine"
  | .ACCOUNT => "AccountManager"
  | .HELP => "HelpResponder"

example : classify_intent "please connect my calendar" = Intent.SETUP := by decide

/-! ## Credit ledger (`app/core/credit_manager.py` and the credit helpers of
`app/core/agent_engine.py`)

`CreditAccount.client_id` carries a UNIQUE constraint in `app/models.py`, so
the `credit_accounts` table is modelled as a partial map from `client_id`.
`credit_transactions` is an append-only list in insertion order (its
`created_at` timestamp is elided; list order is creation order). -/

/-- The `TransactionType` enum of `app/models.py`. -/
inductive TransactionType
  | PURCHASE
  | DEDUCT
  | REFUND
  | WELCOME
deriving DecidableEq, Repr

/-- Persisted columns of a `credit_accounts` row other than the key
`client_id` (and the elided `updated_at` timestamp). -/
structure CreditAccount where
  balance : Int
  total_purchased : Int
  total_used : Int
deriving DecidableEq, Repr

/-- Persisted columns of a `credit_transactions` row (timestamp elided). -/
structure CreditTransaction where
  client_id : Int
  amount : Int
  type : TransactionType
  description : String
deriving DecidableEq, Repr

/-- The credit-related database state: accounts keyed by `client_id`,
transactions in insertion order. -/
structure CreditDB where
  accounts : Int → Option CreditAccount
  transactions : List CreditTransaction

/-- The empty database: no account rows, no transaction rows. -/
def emptyCreditDB : CreditDB := ⟨fun _ => none, []⟩

/-- Commit an account row under the unique key `client_id` (covers both
`session.add` of a fresh row and the in-place mutation of a fetched row). -/
def setAccount (client_id : Int) (a : CreditAccount)
    (f : Int → Option CreditAccount) : Int → Option CreditAccount :=
  fun c => if c = client_id then some a else f c

/-- `CreditManager.get_balance`: the account's balance, or 0 if absent. -/
def get_balance (client_id : Int) (db : CreditDB) : Int :=
  match db.accounts client_id with
  | some account => account.balance
  | none => 0

/-- The transaction-type choice inside `CreditManager.add_credits`:
`PURCHASE if "purchase" in source.lower() else WELCOME`. -/
def addTxnType (source : String) : TransactionType :=
  if pyIn "purchase" (lower source) then .PURCHASE else .WELCOME

/-- `CreditManager.add_credits`: create the account with the given balance if
absent, else increment `balance` and `total_purchased`; append one PURCHASE or
WELCOME transaction; return `True`. -/
def add_credits (client_id : Int) (amount : Int) (source : String)
    (db : CreditDB) : CreditDB × Bool :=
  let accounts' :=
    match db.accounts client_id with
    | none =>
        setAccount client_id
          { balance := amount, total_purchased := amount, total_used := 0 }
          db.accounts
    | some account =>
        setAccount client_id
          { balance := account.balance + amount
            total_purchased := account.total_purchased + amount
            total_used := account.total_used }
          db.accounts
  (⟨accounts',
    db.transactions ++
      [{ client_id := client_id, amount := amount,
         type := addTxnType source, description := source }]⟩, true)

/-- `CreditManager.deduct_credits` (and, with description
`"Used \x7bamount\x7d credits"`, `AgentEngine._check_and_deduct_credits`,
whose body is the same query/guard/mutation/commit sequence): return `False`
with no mutation when the account is absent or `balance < amount`; otherwise
decrement `balance`, increment `total_used`, append one DEDUCT transaction of
amount `-amount`, and return `True`. -/
def deduct_credits (client_id : Int) (amount : Int) (description : String)
    (db : CreditDB) : CreditDB × Bool :=
  match db.accounts client_id with
  | none => (db, false)
  | some account =>
    if account.balance < amount then (db, false)
    else
      (⟨setAccount client_id
          { balance := account.balance - amount
            total_purchased := account.total_purchased
            total_used := account.total_used + amount }
          db.accounts,
        db.transactions ++
          [{ client_id := client_id, amount := -amount,
             type := .DEDUCT, description := description }]⟩, true)

/-- `AgentEngine._refund_credits`: if the account exists, increment `balance`,
decrement `total_used`, and append one REFUND transaction of amount `amount`
with description `"Refund: \x7breason\x7d"`; if absent, do nothing. -/
def refund_credits (client_id : Int) (amount : Int) (reason : String)
    (db : CreditDB) : CreditDB :=
  match db.accounts client_id with
  | none => db
  | some account =>
      ⟨setAccount client_id
        { balance := account.balance + amount
          total_purchased := account.total_purchased
          total_used := account.total_used - amount }
        db.accounts,
       db.transactions ++
         [{ client_id := client_id, amount := amount,
            type := .REFUND, description := "Refund: " ++ reason }]⟩

/-- One ledger operation of the three mutating entry points reachable in the
source: `add_credits`, `deduct_credits` (either caller), `_refund_credits`. -/
inductive CreditOp
  | add (client_id : Int) (amount : Int) (source : String)
  | deduct (client_id : Int) (amount : Int) (description : String)
  | refund (client_id : Int) (amount : Int) (reason : String)

/-- Apply one ledger operation to the database. -/
def applyCreditOp (db : CreditDB) : CreditOp → CreditDB
  | .add client_id amount source => (add_credits client_id amount source db).1
  | .deduct client_id amount description =>
      (deduct_credits client_id amount description db).1
  | .refund client_id amount reason => refund_credits client_id amount reason db

/-- Run a sequence of ledger operations from the empty database
 (no credit account yet for any tenant). -/
def runCreditOps (ops : List CreditOp) : CreditDB :=
  ops.foldl applyCreditOp emptyCreditDB

/-- `sum(transaction.amount for tenant)` over the transaction table. -/
def txnSum (client_id : Int) (ts : List CreditTransaction) : Int :=
  ((ts.filter (fun t => t.client_id == client_id)).map (fun t => t.amount)).sum

/-- The spec's ledger invariant for one tenant:
`balance == total_purchased - total_used` on the tenant's account row, and
the sum of the tenant's transaction amounts equals the tenant's balance. -/
def ledgerInvariant (client_id : Int) (db : CreditDB) : Prop :=
  (∀ a, db.accounts client_id = some a →
      a.balance = a.total_purchased - a.total_used) ∧
  txnSum client_id db.transactions = get_balance client_id db

theorem txnSum_append (client_id : Int) (ts : List CreditTransaction)
    (t : CreditTransaction) :
    txnSum client_id (ts ++ [t]) =
      txnSum client_id ts + (if t.client_id = client_id then t.amount else 0) := by
  by_cases h : t.client_id = client_id
  · simp [txnSum, List.filter_append, h]
  · simp [txnSum, List.filter_append, h]

theorem get_balance_setAccount_self (client_id : Int) (a : CreditAccount)
    (db : CreditDB) (ts : List CreditTransaction) :
    get_balance client_id ⟨setAccount client_id a db.accounts, ts⟩ = a.balance := by
  simp [get_balance, setAccount]

theorem ledgerInvariant_step (db : CreditDB) (cid : Int) (a' : CreditAccount)
    (t : CreditTransaction) (c : Int)
    (H : ledgerInvariant c db)
    (hbal : a'.balance = a'.total_purchased - a'.total_used)
    (htc : t.client_id = cid)
    (hamt : a'.balance = get_balance cid db + t.amount) :
    ledgerInvariant c ⟨setAccount cid a' db.accounts, db.transactions ++ [t]⟩ := by
  obtain ⟨H1, H2⟩ := H
  constructor
  · intro a ha
    by_cases hc : c = cid
    · simp only [setAccount, if_pos hc, Option.some.injEq] at ha
      exact ha ▸ hbal
    · simp only [setAccount, if_neg hc] at ha
      exact H1 a ha
  · rw [txnSum_append]
    by_cases hc : c = cid
    · subst hc
      rw [if_pos htc, get_balance_setAccount_self, H2, ← hamt]
    · have htc' : ¬ t.client_id = c := fun h => hc (h ▸ htc ▸ rfl)
      rw [if_neg htc']
      have hb : get_balance c ⟨setAccount cid a' db.accounts, db.transactions ++ [t]⟩
          = get_balance c db := by
        simp [get_balance, setAccount, fun h => hc h]
      rw [hb, add_zero, H2]

theorem applyCreditOp_preserves (db : CreditDB) (op : CreditOp)
    (H : ∀ c, ledgerInvariant c db) (c : Int) :
    ledgerInvariant c (applyCreditOp db op) := by
  cases op with
  | add cid amount source =>
    cases hacc : db.accounts cid with
    | none =>
      have step := ledgerInvariant_step db cid
        { balance := amount, total_purchased := amount, total_used := 0 }
        { client_id := cid, amount := amount,
          type := addTxnType source, description := source }
        c (H c) (by simp) rfl (by simp [get_balance, hacc])
      simpa [applyCreditOp, add_credits, hacc] using step
    | some a =>
      have hb := (H cid).1 a hacc
      have step := ledgerInvariant_step db cid
        { balance := a.balance + amount,
          total_purchased := a.total_purchased + amount,
          total_used := a.total_used }
        { client_id := cid, amount := amount,
          type := addTxnType source, description := source }
        c (H c) (by simp only; omega) rfl (by simp [get_balance, hacc])
      simpa [applyCreditOp, add_credits, hacc] using step
  | deduct cid amount description =>
    cases hacc : db.accounts cid with
    | none => simpa [applyCreditOp, deduct_credits, hacc] using H c
    | some a =>
      by_cases hlt : a.balance < amount
      · simpa [applyCreditOp, deduct_credits, hacc, hlt] using H c
      · have hb := (H cid).1 a hacc
        have step := ledgerInvariant_step db cid
          { balance := a.balance - amount,
            total_purchased := a.total_purchased,
            total_used := a.total_used + amount }
          { client_id := cid, amount := -amount,
            type := .DEDUCT, description := description }
          c (H c) (by simp only; omega) rfl (by simp [get_balance, hacc]; omega)
        simpa [applyCreditOp, deduct_credits, hacc, hlt] using step
  | refund cid amount reason =>
    cases hacc : db.accounts cid with
    | none => simpa [applyCreditOp, refund_credits, hacc] using H c
    | some a =>
      have hb := (H cid).1 a hacc
      have step := ledgerInvariant_step db cid
        { balance := a.balance + amount,
          total_purchased := a.total_purchased,
          total_used := a.total_used - amount }
        { client_id := cid, amount := amount,
          type := .REFUND, description := "Refund: " ++ reason }
        c (H c) (by simp only; omega) rfl (by simp [get_balance, hacc])
      simpa [applyCreditOp, refund_credits, hacc] using step

theorem emptyCreditDB_invariant (c : Int) : ledgerInvariant c emptyCreditDB := by
  constructor
  · intro a ha
    simp [emptyCreditDB] at ha
  · simp [txnSum, get_balance, emptyCreditDB]

theorem foldl_creditOps_preserves (ops : List CreditOp) (db : CreditDB)
    (H : ∀ c, ledgerInvariant c db) (c : Int) :
    ledgerInvariant c (ops.foldl applyCreditOp db) := by
  induction ops generalizing db with
  | nil => exact H c
  | cons op rest ih =>
      exact ih (applyCreditOp db op)
        (fun c' => applyCreditOp_preserves db op H c')

/-! ## SystemPromptCompiler (`app/core/compiler.py`) -/

/-- Persisted columns of an `agent_configs` row other than the unique key
`client_id` (row id elided; `updated_at` kept as a plain counter so that
determinism over the compiled fields is not vacuous). -/
structure AgentConfig where
  agent_name : String
  personality : String
  language : String
  custom_instructions : Option String
  compiled_system_prompt : Option String
  updated_at : Nat
deriving DecidableEq, Repr

/-- Python truthiness fallback `value or default` on an optional string:
`None` and the empty string both fall back. -/
def pyOr (value : Option String) (default : String) : String :=
  match value with
  | none => default
  | some s => if s == "" then default else s

/-- Python whitespace class used by `str.strip()`. -/
def isPyWhitespace (c : Char) : Bool :=
  c == ' ' || c == '\t' || c == '\n' || c == '\r' || c == '\x0b' || c == '\x0c'

/-- Python `str.strip()`: drop leading and trailing whitespace. -/
def pyStrip (s : String) : String :=
  ⟨((s.data.dropWhile isPyWhitespace).reverse.dropWhile isPyWhitespace).reverse⟩

/-- The `personality_styles` lookup with fallback inside
`SystemPromptCompiler.compile`. -/
def personalityStyle (personality : String) : String :=
  if personality == "formal" then "professional, formal, and business-like"
  else if personality == "friendly" then "warm, friendly, and approachable"
  else if personality == "brief" then "concise, brief, and to-the-point"
  else "helpful and professional"

/-- `SystemPromptCompiler.compile`: interpolate agent name, style phrase,
language and custom instructions (with default fallback) into the fixed
template, then strip the result. -/
def compile (config : AgentConfig) : String :=
  let style := personalityStyle config.personality
  pyStrip
    ("You are " ++ config.agent_name ++ ".\n\nCommunication style: " ++ style ++
     "\nPrimary language: " ++ config.language ++ "\n\nAbout the business:\n" ++
     pyOr config.custom_instructions
       "I help businesses automate their operations with AI." ++
     "\n\nGuidelines:\n- Always be helpful, concise, and stay in character\n- If you cannot help with something, say so clearly and suggest alternatives\n- Remember: users configure everything by talking to you\n- Guide them through setup naturally\n- Be proactive in suggesting next steps\n")

/-! ## AgentEngine (`app/core/agent_engine.py`)

`AgentConfig.client_id` is UNIQUE, so the `agent_configs` table is a partial
map from `client_id`.  The awaited `runtime.run` call is modelled by its
outcome, passed as an `Except String String` parameter (`.error e` stands for
a raised exception whose `str` is `e`); `_load_memory` returns `[]` and
`_save_memory` is a no-op in the source, so the body of the `try` block can
fail only at the runtime call. -/

/-- Fixed replies of `AgentEngine.execute`. -/
def config_error_message : String := "Error: Agent not configured"

/-- The out-of-credits reply of `AgentEngine.execute`. -/
def out_of_credits_message : String :=
  "⚠️ You\x27ve run out of credits. Reply \x27buy credits\x27 to top up."

/-- The generic apology reply of the refund path of `AgentEngine.execute`. -/
def apology_message : String := "Sorry, I encountered an error. Please try again."

/-- `AgentEngine._get_credit_cost` with the source's env-var defaults
(`COST_TELEGRAM_MSG=1`, `COST_EMAIL=2`, `COST_VOIP_PER_MIN=2`, `COST_SMS=1`,
`COST_WEB_WIDGET=1`, fallback 1). -/
def get_credit_cost (channel_type : String) : Int :=
  if channel_type == "telegram" then 1
  else if channel_type == "email" then 2
  else if channel_type == "voip" then 2
  else if channel_type == "sms" then 1
  else if channel_type == "web_widget" then 1
  else 1

/-- The state touched by `AgentEngine.execute`: agent configs and the credit
ledger. -/
structure EngineState where
  configs : Int → Option AgentConfig
  credits : CreditDB

/-- `AgentEngine.execute`: load config (absent leads to the configuration-error
reply), deduct the channel cost (`_check_and_deduct_credits`, whose body is
`deduct_credits` with description `"Used \x7bamount\x7d credits"`), then run the
runtime; on success return its response, on any exception refund the same
amount with reason `"Error: \x7be\x7d"` and return the apology. -/
def execute (client_id : Int) (message : String) (channel_type : String)
    (run_outcome : Except String String) (st : EngineState) :
    EngineState × String :=
  match st.configs client_id with
  | none => (st, config_error_message)
  | some _config =>
    let credit_cost := get_credit_cost channel_type
    let dres := deduct_credits client_id credit_cost
      ("Used " ++ toString credit_cost ++ " credits") st.credits
    if dres.2 then
      match run_outcome with
      | .ok response => ({ st with credits := dres.1 }, response)
      | .error e =>
          ({ st with credits :=
              refund_credits client_id credit_cost ("Error: " ++ e) dres.1 },
           apology_message)
    else
      ({ st with credits := dres.1 }, out_of_credits_message)

/-! ## SetupOrchestrator (`app/core/setup.py`, `SetupSession` in
`app/models.py`)

A `setup_sessions` row's persisted columns are `client_id`, `flow_name`,
`current_step`, `collected_data_json` and `completed_at` (`started_at` and the
row id are elided; the table is a list in insertion order).  The source never
writes the `collected_data_json` column: `_start_flow` and `_continue_flow`
use a `collected_data` attribute, which is not a declared field of the
`SetupSession` model, so SQLModel keeps it as a transient in-memory attribute
of the one Python object and the database column stays NULL.  An instance
freshly loaded by `_get_active_session` has no such attribute, and reading it
raises `AttributeError`.  The transient attribute is modelled as an
`Option` next to the row (`none` = attribute absent), holding the parsed form
of the JSON dict (`json.loads`/`json.dumps` round-trip elided; Python dicts
keep insertion order, so the dict is an ordered association list). -/

/-- Persisted columns of a `setup_sessions` row. -/
structure SetupRow where
  client_id : Int
  flow_name : String
  current_step : Nat
  collected_data_json : Option String
  completed_at : Option Nat
deriving DecidableEq, Repr

/-- A `SetupSession` Python instance: the persisted row plus the transient
(non-column) `collected_data` attribute; `none` means the attribute is absent,
as on any instance loaded from the database. -/
structure SetupObj where
  row : SetupRow
  collected_data : Option (List (String × String))
deriving DecidableEq, Repr

/-- The `setup_sessions` table in insertion order. -/
structure SetupDB where
  sessions : List SetupRow
deriving DecidableEq, Repr

/-- Python `dict.get`. -/
def dictGet (k : String) : List (String × String) → Option String
  | [] => none
  | (k0, v0) :: rest => if k0 == k then some v0 else dictGet k rest

/-- Python `dict[k] = v`: replace in place, or append preserving insertion
order. -/
def dictSet (k v : String) : List (String × String) → List (String × String)
  | [] => [(k, v)]
  | (k0, v0) :: rest =>
      if k0 == k then (k0, v) :: rest else (k0, v0) :: dictSet k v rest

/-- Python `str(x)` as an f-string renders `None` for a missing value. -/
def pyShow : Option String → String
  | some s => s
  | none => "None"

/-- A setup flow class: name, ordered step prompts, per-step validator
(`some err` = invalid with that error message) and the message produced by the
terminal `execute(collected_data)`. -/
structure SetupFlowDef where
  name : String
  steps : List String
  validateStep : Nat → String → Option String
  executeMessage : List (String × String) → String

/-- `VoIPSetupFlow`. -/
def voipFlow : SetupFlowDef where
  name := "voip"
  steps :=
    ["Do you have a VoIP number or should I create one for you? (reply: \x27have\x27 or \x27create\x27)",
     "What should I say when I answer calls?",
     "Great! I\x27ll configure this now."]
  validateStep := fun step user_input =>
    if step == 0 then
      if (["have", "create"].contains (lower user_input)) then none
      else some "Please reply \x27have\x27 if you have a number, or \x27create\x27 if you need one."
    else none
  executeMessage := fun _ =>
    "✅ VoIP configured! Your number will be ready in a few minutes."

/-- `PersonalitySetupFlow`. -/
def personalityFlow : SetupFlowDef where
  name := "personality"
  steps :=
    ["What\x27s your agent\x27s name?",
     "How should it communicate? (formal / friendly / brief)",
     "What\x27s your business about? Describe it in a few words.",
     "Any specific instructions? (languages, things to avoid, etc.)"]
  validateStep := fun step user_input =>
    if step == 1 then
      if (["formal", "friendly", "brief"].contains (lower user_input)) then none
      else some "Please choose: formal, friendly, or brief"
    else none
  executeMessage := fun collected_data =>
    "✅ Your agent \x27" ++ pyShow (dictGet "name" collected_data) ++ "\x27 is ready!"

/-- `SetupOrchestrator.flows.get(flow_name)`: the only non-`None` entries are
`voip` and `personality`; the other declared keys map to `None`, which the
source treats the same as a missing key. -/
def flowClass (flow_name : String) : Option SetupFlowDef :=
  if flow_name == "voip" then some voipFlow
  else if flow_name == "personality" then some personalityFlow
  else none

/-- `SetupFlow.get_step_message`: the step prompt, or the fallback when the
index is past the end. -/
def get_step_message (flow : SetupFlowDef) (step : Nat) : String :=
  match flow.steps.get? step with
  | some m => m
  | none => "Setup complete!"

/-- `SetupOrchestrator._detect_flow`. -/
def detect_flow (message : String) : Option String :=
  let message_lower := lower message
  if (["phone", "voip", "call", "number"]).any (fun w => pyIn w message_lower) then
    some "voip"
  else if (["personality", "name", "style", "character"]).any
      (fun w => pyIn w message_lower) then
    some "personality"
  else none

/-- The cancellation reply of `SetupOrchestrator._continue_flow`. -/
def cancel_message : String :=
  "Setup cancelled. You can start again anytime by saying \x27setup\x27."

/-- The fallback menu reply of `SetupOrchestrator.handle`. -/
def setup_menu_message : String :=
  "I can help you set up: phone (VoIP), email, calendar, or customize my personality. Which would you like?"

/-- `SetupOrchestrator._continue_flow` on one loaded `SetupSession` instance:
cancel words complete the session immediately; otherwise validate, then read
the transient `collected_data` attribute (raising `AttributeError` when it is
absent, as on every database-loaded instance), store the answer keyed by
`"step_\x7bindex\x7d"`, advance the step, and either finish the flow or return
the next prompt.  Returns the committed row and the reply, or the uncaught
exception. -/
def continue_flow (obj : SetupObj) (message : String) (now : Nat) :
    Except String (SetupRow × String) :=
  if (["cancel", "stop", "exit"] : List String).contains (lower message) then
    .ok ({ obj.row with completed_at := some now }, cancel_message)
  else
    match flowClass obj.row.flow_name with
    | none => .ok (obj.row, "Error: Unknown setup flow.")
    | some flow =>
      let current_step := obj.row.current_step
      match flow.validateStep current_step message with
      | some error => .ok (obj.row, error)
      | none =>
        match obj.collected_data with
        | none => .error "AttributeError: \x27SetupSession\x27 object has no attribute \x27collected_data\x27"
        | some data =>
          let collected_data := dictSet ("step_" ++ toString current_step) message data
          let next_step := current_step + 1
          let row' := { obj.row with current_step := next_step }
          if flow.steps.length ≤ next_step then
            .ok ({ row' with completed_at := some now },
                 flow.executeMessage collected_data)
          else
            .ok (row', get_step_message flow next_step)

/-- `SetupOrchestrator._get_active_session`: first row for the client with
`completed_at` NULL, in insertion order. -/
def findActive (client_id : Int) : List SetupRow → Option SetupRow
  | [] => none
  | r :: rs =>
      if r.client_id == client_id && r.completed_at.isNone then some r
      else findActive client_id rs

/-- Commit the mutation of the instance `_get_active_session` returned:
replace the first active row for the client. -/
def updateFirstActive (client_id : Int) (row' : SetupRow) :
    List SetupRow → List SetupRow
  | [] => []
  | r :: rs =>
      if r.client_id == client_id && r.completed_at.isNone then row' :: rs
      else r :: updateFirstActive client_id row' rs

/-- `SetupOrchestrator.handle`: continue the active session if one exists
(each request loads it fresh from the database, so the transient
`collected_data` attribute is absent); otherwise detect a flow and start it
(`_start_flow` persists a new row at step 0 — its `collected_data="\x7b\x7d"`
keyword argument sets only the transient attribute, the
`collected_data_json` column keeps its NULL default), or reply with the menu. -/
def handle (client_id : Int) (message : String) (now : Nat) (db : SetupDB) :
    Except String (SetupDB × String) :=
  match findActive client_id db.sessions with
  | some row =>
      match continue_flow ⟨row, none⟩ message now with
      | .error e => .error e
      | .ok (row', reply) =>
          .ok (⟨updateFirstActive client_id row' db.sessions⟩, reply)
  | none =>
      match detect_flow message with
      | some flow_name =>
          match flowClass flow_name with
          | none =>
              .ok (db, "Sorry, I don\x27t know how to set up " ++ flow_name ++ " yet.")
          | some flow =>
              .ok (⟨db.sessions ++
                     [{ client_id := client_id, flow_name := flow_name,
                        current_step := 0, collected_data_json := none,
                        completed_at := none }]⟩,
                   get_step_message flow 0)
      | none => .ok (db, setup_menu_message)

/-! ## BotPoolManager (`app/core/bot_pool.py`, `BotPool` in `app/models.py`)

The `bot_pool` table is a list in insertion (creation) order — `claim_bot`
issues an unordered SELECT whose rows come back in primary-key order, which is
insertion order.  Token/username/name columns are kept; `created_at` is
elided (list order), `assigned_at` is a `Nat` timestamp. -/

/-- The `BotStatus` enum of `app/models.py`. -/
inductive BotStatus
  | AVAILABLE
  | ASSIGNED
  | RETIRED
deriving DecidableEq, Repr

/-- Persisted columns of a `bot_pool` row (row id and `created_at` elided;
list position is creation order). -/
structure BotPool where
  bot_token : String
  bot_username : String
  bot_name : String
  status : BotStatus
  assigned_to_client_id : Option Int
  assigned_at : Option Nat
deriving DecidableEq, Repr

/-- The `bot_pool` table in creation order. -/
structure PoolDB where
  bots : List BotPool
deriving DecidableEq, Repr

/-- The `BotPoolExhaustedException` class, as a distinguishable error tag. -/
inductive PoolError
  | exhausted
deriving DecidableEq, Repr

/-- Take the first AVAILABLE bot (the `available_bots[0]` of the filtered
SELECT) and mutate it in place to ASSIGNED for the client. -/
def claimFirst (client_id : Int) (now : Nat) :
    List BotPool → Option (List BotPool × BotPool)
  | [] => none
  | b :: bs =>
      if b.status == BotStatus.AVAILABLE then
        let b' := { b with status := BotStatus.ASSIGNED,
                           assigned_to_client_id := some client_id,
                           assigned_at := some now }
        some (b' :: bs, b')
      else
        match claimFirst client_id now bs with
        | some (bs', bot) => some (b :: bs', bot)
        | none => none

/-- `BotPoolManager.claim_bot`: select the AVAILABLE rows; if none, raise
`BotPoolExhaustedException` leaving every record untouched; else take the
first, set it ASSIGNED with the client as owner, commit, and return it. -/
def claim_bot (client_id : Int) (now : Nat) (db : PoolDB) :
    PoolDB × Except PoolError BotPool :=
  match claimFirst client_id now db.bots with
  | none => (db, .error PoolError.exhausted)
  | some (bots', bot) => (⟨bots'⟩, .ok bot)

/-! ## Webhook dispatch (`app/routers/webhooks.py`) -/

/-- State touched by `_dispatch_incoming_message`: agent configs, the credit
ledger and the setup-session table. -/
structure SysState where
  configs : Int → Option AgentConfig
  credits : CreditDB
  setup_sessions : SetupDB

/-- The static `HelpResponder` reply of `_dispatch_incoming_message`. -/
def help_message : String :=
  "I can help with setup, tasks, and account questions. Ask me anything."

/-- The `AccountManager` reply of `_dispatch_incoming_message`. -/
def balance_message (balance : Int) : String :=
  "You currently have " ++ toString balance ++ " credits."

/-- `_dispatch_incoming_message`: route via `ConversationRouter.route` (which
only wraps `classify_intent` in the static `handler_map`), then branch on the
handler name: setup orchestration, the balance reply, the static help reply,
or `AgentEngine.execute` on the task path.  An uncaught exception escapes to
the webhook handler; `run_outcome`/`now` parametrise the awaited runtime call
and the commit timestamp. -/
def dispatch_incoming_message (client_id : Int) (text : String)
    (channel_type : String) (run_outcome : Except String String) (now : Nat)
    (st : SysState) : Except String (SysState × String) :=
  let handler := handler_map (classify_intent text)
  if handler == "SetupOrchestrator" then
    match handle client_id text now st.setup_sessions with
    | .error e => .error e
    | .ok (sdb, reply) => .ok ({ st with setup_sessions := sdb }, reply)
  else if handler == "AccountManager" then
    .ok (st, balance_message (get_balance client_id st.credits))
  else if handler == "HelpResponder" then
    .ok (st, help_message)
  else
    let r := execute client_id text channel_type run_outcome
      ⟨st.configs, st.credits⟩
    .ok ({ st with configs := r.1.configs, credits := r.1.credits }, r.2)

/-! ## Auxiliary lemmas about the credit operations -/

/-- Number of REFUND transactions recorded for a tenant. -/
def countRefunds (client_id : Int) (ts : List CreditTransaction) : Nat :=
  (ts.filter
    (fun t => t.type == TransactionType.REFUND && t.client_id == client_id)).length

theorem deduct_credits_success (client_id amount : Int) (description : String)
    (db : CreditDB)
    (h : (deduct_credits client_id amount description db).2 = true) :
    ∃ a, db.accounts client_id = some a ∧ ¬ a.balance < amount ∧
      deduct_credits client_id amount description db =
        (⟨setAccount client_id
            { balance := a.balance - amount,
              total_purchased := a.total_purchased,
              total_used := a.total_used + amount } db.accounts,
          db.transactions ++
            [{ client_id := client_id, amount := -amount,
               type := .DEDUCT, description := description }]⟩, true) := by
  cases hacc : db.accounts client_id with
  | none => simp [deduct_credits, hacc] at h
  | some a =>
    by_cases hlt : a.balance < amount
    · simp [deduct_credits, hacc, hlt] at h
    · exact ⟨a, rfl, hlt, by simp [deduct_credits, hacc, hlt]⟩

theorem deduct_credits_failure (client_id amount : Int) (description : String)
    (db : CreditDB)
    (h : (deduct_credits client_id amount description db).2 = false) :
    deduct_credits client_id amount description db = (db, false) := by
  cases hacc : db.accounts client_id with
  | none => simp [deduct_credits, hacc]
  | some a =>
    by_cases hlt : a.balance < amount
    · simp [deduct_credits, hacc, hlt]
    · simp [deduct_credits, hacc, hlt] at h

/-! ## Claim theorems -/

/-- C8: `classify_intent` lowercases the message and does substring matching
against the fixed keyword sets in priority order SETUP, then ACCOUNT, then
HELP, returning the first intent whose set matches and defaulting to TASK when
none match; in particular `classify_intent "please connect my calendar"` is
SETUP. -/
theorem classify_intent_priority :
    (∀ message : String,
      (matchesAny SETUP_KEYWORDS (lower message) = true →
        classify_intent message = Intent.SETUP) ∧
      (matchesAny SETUP_KEYWORDS (lower message) = false →
        matchesAny ACCOUNT_KEYWORDS (lower message) = true →
        classify_intent message = Intent.ACCOUNT) ∧
      (matchesAny SETUP_KEYWORDS (lower message) = false →
        matchesAny ACCOUNT_KEYWORDS (lower message) = false →
        matchesAny HELP_KEYWORDS (lower message) = true →
        classify_intent message = Intent.HELP) ∧
      (matchesAny SETUP_KEYWORDS (lower message) = false →
        matchesAny ACCOUNT_KEYWORDS (lower message) = false →
        matchesAny HELP_KEYWORDS (lower message) = false →
        classify_intent message = Intent.TASK)) ∧
    classify_intent "please connect my calendar" = Intent.SETUP := by
  constructor
  · intro message
    refine ⟨fun h1 => ?_, fun h1 h2 => ?_, fun h1 h2 h3 => ?_, fun h1 h2 h3 => ?_⟩
    · simp [classify_intent, h1]
    · simp [classify_intent, h1, h2]
    · simp [classify_intent, h1, h2, h3]
    · simp [classify_intent, h1, h2, h3]
  · decide

/-- C8 witness: the SETUP keyword set matches the scenario message, and the
classifier returns SETUP on it. -/
theorem classify_intent_priority_witness :
    matchesAny SETUP_KEYWORDS (lower "please connect my calendar") = true ∧
    classify_intent "please connect my calendar" = Intent.SETUP :=
  ⟨by decide,
   (classify_intent_priority.1 "please connect my calendar").1 (by decide)⟩

/-- C9: `compile` is deterministic and (being a Lean function) side-effect
free: its output depends only on the configuration fields it interpolates, so
two calls with identical field values produce byte-identical output. -/
theorem compile_deterministic (c1 c2 : AgentConfig)
    (hname : c1.agent_name = c2.agent_name)
    (hpers : c1.personality = c2.personality)
    (hlang : c1.language = c2.language)
    (hinstr : c1.custom_instructions = c2.custom_instructions) :
    compile c1 = compile c2 := by
  unfold compile
  rw [hname, hpers, hlang, hinstr]

/-- C9 witness: two configs with identical compiled fields (differing in the
cached prompt and timestamp) compile to the same text. -/
theorem compile_deterministic_witness :
    (⟨"Ada", "formal", "en", none, none, 0⟩ : AgentConfig).agent_name =
      (⟨"Ada", "formal", "en", none, some "cached", 7⟩ : AgentConfig).agent_name ∧
    compile ⟨"Ada", "formal", "en", none, none, 0⟩ =
      compile ⟨"Ada", "formal", "en", none, some "cached", 7⟩ :=
  ⟨rfl, compile_deterministic _ _ rfl rfl rfl rfl⟩

/-- C2: starting from no credit account, every sequence of `add_credits`,
`deduct_credits` and refund operations preserves, for every tenant, both
ledger invariants: `balance = total_purchased - total_used` on the tenant's
account row, and the sum of the tenant's transaction amounts equals the
tenant's balance. -/
theorem ledger_invariant_preserved (ops : List CreditOp) (client_id : Int) :
    ledgerInvariant client_id (runCreditOps ops) :=
  foldl_creditOps_preserves ops emptyCreditDB emptyCreditDB_invariant client_id

/-- C2 witness: the invariant holds after a concrete welcome grant, a
deduction and a refund for tenant 1. -/
theorem ledger_invariant_preserved_witness :
    ledgerInvariant 1 (runCreditOps
      [CreditOp.add 1 100 "welcome grant", CreditOp.deduct 1 30 "Used 30 credits",
       CreditOp.refund 1 30 "Error: boom"]) :=
  ledger_invariant_preserved
    [CreditOp.add 1 100 "welcome grant", CreditOp.deduct 1 30 "Used 30 credits",
     CreditOp.refund 1 30 "Error: boom"] 1

/-- C3: for every positive amount, `deduct_credits` returns `False` and
mutates nothing when the account is absent or underfunded, and otherwise
performs, in one state transition, exactly the three coupled effects —
balance decrement, `total_used` increment, one appended DEDUCT transaction —
and returns `True`. -/
theorem deduct_credits_atomic (db : CreditDB) (client_id amount : Int)
    (description : String) (hpos : 0 < amount) :
    (db.accounts client_id = none →
      deduct_credits client_id amount description db = (db, false)) ∧
    (∀ a, db.accounts client_id = some a → a.balance < amount →
      deduct_credits client_id amount description db = (db, false)) ∧
    (∀ a, db.accounts client_id = some a → ¬ a.balance < amount →
      deduct_credits client_id amount description db =
        (⟨setAccount client_id
            { balance := a.balance - amount,
              total_purchased := a.total_purchased,
              total_used := a.total_used + amount } db.accounts,
          db.transactions ++
            [{ client_id := client_id, amount := -amount,
               type := .DEDUCT, description := description }]⟩, true)) := by
  refine ⟨fun habs => ?_, fun a hacc hlt => ?_, fun a hacc hlt => ?_⟩
  · simp [deduct_credits, habs]
  · simp [deduct_credits, hacc, hlt]
  · simp [deduct_credits, hacc, hlt]

/-- Account table with a single funded account for tenant 1, used by the
concrete witnesses. -/
def witnessAccounts : Int → Option CreditAccount :=
  fun c => if c = 1 then some { balance := 5, total_purchased := 5, total_used := 0 } else none

/-- C3 witness: deducting 2 credits from tenant 1 with balance 5 applies the
three effects as one transition and returns `True`. -/
theorem deduct_credits_atomic_witness :
    (0 : Int) < 2 ∧
    deduct_credits 1 2 "usage" ⟨witnessAccounts, []⟩ =
      (⟨setAccount 1 { balance := 5 - 2, total_purchased := 5, total_used := 0 + 2 }
          witnessAccounts,
        [{ client_id := 1, amount := -2, type := .DEDUCT, description := "usage" }]⟩,
       true) :=
  ⟨by decide,
   (deduct_credits_atomic ⟨witnessAccounts, []⟩ 1 2 "usage" (by decide)).2.2
     { balance := 5, total_purchased := 5, total_used := 0 } rfl (by decide)⟩

/-- C1: on the costed Task path of `AgentEngine.execute` with the tenant's
config present — (a) when the credit deduction succeeds and the runtime call
then fails, the dispatch appends exactly one DEDUCT and then exactly one
REFUND transaction of the same amount and replies with the generic apology;
(a') when the deduction succeeds and the runtime call succeeds, no refund is
recorded and the runtime response is returned; (b) when the deduction fails,
the state is untouched (zero transactions recorded) and the reply is the
out-of-credits message — so the refund executes at most once per dispatch and
only when the deduction succeeded. -/
theorem execute_refund_protocol (st : EngineState) (client_id cost : Int)
    (message channel_type e : String) (config : AgentConfig)
    (hconf : st.configs client_id = some config)
    (hcost : cost = get_credit_cost channel_type) :
    ((deduct_credits client_id cost ("Used " ++ toString cost ++ " credits")
        st.credits).2 = true →
      (execute client_id message channel_type (.error e) st).2 = apology_message ∧
      (execute client_id message channel_type (.error e) st).1.credits.transactions =
        st.credits.transactions ++
          [{ client_id := client_id, amount := -cost, type := .DEDUCT,
             description := "Used " ++ toString cost ++ " credits" },
           { client_id := client_id, amount := cost, type := .REFUND,
             description := "Refund: Error: " ++ e }] ∧
      countRefunds client_id
          (execute client_id message channel_type (.error e) st).1.credits.transactions =
        countRefunds client_id st.credits.transactions + 1) ∧
    (∀ response,
      (deduct_credits client_id cost ("Used " ++ toString cost ++ " credits")
        st.credits).2 = true →
      (execute client_id message channel_type (.ok response) st).2 = response ∧
      (execute client_id message channel_type (.ok response) st).1.credits.transactions =
        st.credits.transactions ++
          [{ client_id := client_id, amount := -cost, type := .DEDUCT,
             description := "Used " ++ toString cost ++ " credits" }]) ∧
    (∀ run_outcome,
      (deduct_credits client_id cost ("Used " ++ toString cost ++ " credits")
        st.credits).2 = false →
      execute client_id message channel_type run_outcome st =
        (st, out_of_credits_message)) := by
  subst hcost
  refine ⟨fun hded => ?_, fun response hded => ?_, fun run_outcome hded => ?_⟩
  · obtain ⟨a, hacc, hlt, heq⟩ := deduct_credits_success _ _ _ _ hded
    have h1 : (execute client_id message channel_type (.error e) st).2 =
        apology_message := by
      simp [execute, hconf, hded]
    have h2 : (execute client_id message channel_type (.error e) st).1.credits =
        refund_credits client_id (get_credit_cost channel_type) ("Error: " ++ e)
          (deduct_credits client_id (get_credit_cost channel_type)
            ("Used " ++ toString (get_credit_cost channel_type) ++ " credits")
            st.credits).1 := by
      simp [execute, hconf, hded]
    rw [heq] at h2
    have h3 : (execute client_id message channel_type
        (.error e) st).1.credits.transactions =
        st.credits.transactions ++
          [{ client_id := client_id, amount := -(get_credit_cost channel_type),
             type := .DEDUCT,
             description := "Used " ++ toString (get_credit_cost channel_type) ++ " credits" },
           { client_id := client_id, amount := get_credit_cost channel_type,
             type := .REFUND, description := "Refund: Error: " ++ e }] := by
      rw [h2]
      simp [refund_credits, setAccount]
      rw [← String.append_assoc]
      rfl
    refine ⟨h1, h3, ?_⟩
    rw [h3]
    simp [countRefunds, List.filter_append,
      (show (TransactionType.DEDUCT == TransactionType.REFUND) = false from rfl),
      (show (TransactionType.REFUND == TransactionType.REFUND) = true from rfl)]
  · obtain ⟨a, hacc, hlt, heq⟩ := deduct_credits_success _ _ _ _ hded
    have h1 : (execute client_id message channel_type (.ok response) st).2 =
        response := by
      simp [execute, hconf, hded]
    have h2 : (execute client_id message channel_type (.ok response) st).1.credits =
        (deduct_credits client_id (get_credit_cost channel_type)
          ("Used " ++ toString (get_credit_cost channel_type) ++ " credits")
          st.credits).1 := by
      simp [execute, hconf, hded]
    rw [heq] at h2
    refine ⟨h1, ?_⟩
    rw [h2]
  · have heq := deduct_credits_failure _ _ _ _ hded
    simp [execute, hconf, hded, heq]

/-- Engine state with a configured agent and 5 credits for tenant 1, used by
the concrete witnesses. -/
def witnessEngineState : EngineState :=
  ⟨fun c => if c = 1 then some ⟨"Ada", "friendly", "en", none, none, 0⟩ else none,
   ⟨witnessAccounts, []⟩⟩

/-- C1 witness: for tenant 1 with config present and 5 credits, an SMS task
dispatch whose runtime call raises replies with the generic apology (and, by
the applied theorem, records exactly one DEDUCT and one REFUND). -/
theorem execute_refund_protocol_witness :
    witnessEngineState.configs 1 = some ⟨"Ada", "friendly", "en", none, none, 0⟩ ∧
    (1 : Int) = get_credit_cost "sms" ∧
    (execute 1 "book a table" "sms" (.error "boom") witnessEngineState).2 =
      apology_message :=
  ⟨rfl, rfl,
   ((execute_refund_protocol witnessEngineState 1 1 "book a table" "sms" "boom"
       ⟨"Ada", "friendly", "en", none, none, 0⟩ rfl rfl).1 (by decide)).1⟩

/-- C10: for a tenant with no credit-account row, `get_balance` returns 0
rather than failing, and an Account-intent dispatch replies that the tenant
currently has 0 credits. -/
theorem get_balance_absent_zero (st : SysState) (client_id : Int)
    (text channel_type : String) (run_outcome : Except String String) (now : Nat)
    (habs : st.credits.accounts client_id = none)
    (hacct : classify_intent text = Intent.ACCOUNT) :
    get_balance client_id st.credits = 0 ∧
    dispatch_incoming_message client_id text channel_type run_outcome now st =
      .ok (st, "You currently have 0 credits.") := by
  have hbal : get_balance client_id st.credits = 0 := by
    simp [get_balance, habs]
  refine ⟨hbal, ?_⟩
  simp [dispatch_incoming_message, hacct, handler_map, balance_message, hbal]
  rfl

/-- C10 witness: a tenant that was never granted credits has balance 0 and the
Account-intent dispatch on "balance" replies with the 0-credits message. -/
theorem get_balance_absent_zero_witness :
    (⟨fun _ => none, emptyCreditDB, ⟨[]⟩⟩ : SysState).credits.accounts 1 = none ∧
    classify_intent "balance" = Intent.ACCOUNT ∧
    dispatch_incoming_message 1 "balance" "telegram" (.ok "hi") 0
        ⟨fun _ => none, emptyCreditDB, ⟨[]⟩⟩ =
      .ok (⟨fun _ => none, emptyCreditDB, ⟨[]⟩⟩, "You currently have 0 credits.") :=
  ⟨rfl, by decide,
   (get_balance_absent_zero ⟨fun _ => none, emptyCreditDB, ⟨[]⟩⟩ 1 "balance"
     "telegram" (.ok "hi") 0 rfl (by decide)).2⟩

/-- C5 counterexample: with tenant 1 having no agent configuration, the
dispatch of the Account-intent message "balance" resolves no configuration at
all and replies with the balance message, not the fixed configuration-error
message — so configuration resolution is not the strictly first dispatch step
and an absent configuration does not force the configuration-error reply for
every intent. -/
theorem dispatch_config_check_not_first :
    dispatch_incoming_message 1 "balance" "telegram" (.ok "hi") 0
        ⟨fun _ => none, emptyCreditDB, ⟨[]⟩⟩ =
      .ok (⟨fun _ => none, emptyCreditDB, ⟨[]⟩⟩, "You currently have 0 credits.") ∧
    "You currently have 0 credits." ≠ config_error_message :=
  ⟨rfl, by decide⟩

/-- C5 (amended): configuration resolution is the first step of the costed
Task path only — it happens inside `AgentEngine.execute`, after intent
classification; whenever the message classifies as Task and the tenant's
configuration is absent, the dispatch returns the fixed configuration-error
message and no state (in particular no credit state) is touched. -/
theorem task_dispatch_missing_config (st : SysState) (client_id : Int)
    (text channel_type : String) (run_outcome : Except String String) (now : Nat)
    (htask : classify_intent text = Intent.TASK)
    (habs : st.configs client_id = none) :
    dispatch_incoming_message client_id text channel_type run_outcome now st =
      .ok (st, config_error_message) := by
  simp [dispatch_incoming_message, htask, handler_map, execute, habs]

/-- C5 amended-claim witness: a Task-intent message for an unconfigured tenant
yields the configuration-error reply with the state untouched. -/
theorem task_dispatch_missing_config_witness :
    classify_intent "hello there" = Intent.TASK ∧
    dispatch_incoming_message 1 "hello there" "telegram" (.ok "hi") 0
        ⟨fun _ => none, emptyCreditDB, ⟨[]⟩⟩ =
      .ok (⟨fun _ => none, emptyCreditDB, ⟨[]⟩⟩, config_error_message) :=
  ⟨by decide,
   task_dispatch_missing_config ⟨fun _ => none, emptyCreditDB, ⟨[]⟩⟩ 1
     "hello there" "telegram" (.ok "hi") 0 (by decide) rfl⟩

theorem claimFirst_none (client_id : Int) (now : Nat) (l : List BotPool)
    (h : ∀ x ∈ l, x.status ≠ BotStatus.AVAILABLE) :
    claimFirst client_id now l = none := by
  induction l with
  | nil => rfl
  | cons b bs ih =>
    have hb : ¬ b.status = BotStatus.AVAILABLE := h b (by simp)
    simp [claimFirst, hb, ih (fun x hx => h x (by simp [hx]))]

theorem claimFirst_found (client_id : Int) (now : Nat) (pre : List BotPool)
    (b : BotPool) (post : List BotPool)
    (hpre : ∀ x ∈ pre, x.status ≠ BotStatus.AVAILABLE)
    (hb : b.status = BotStatus.AVAILABLE) :
    claimFirst client_id now (pre ++ b :: post) =
      some (pre ++
        { b with status := BotStatus.ASSIGNED,
                 assigned_to_client_id := some client_id,
                 assigned_at := some now } :: post,
        { b with status := BotStatus.ASSIGNED,
                 assigned_to_client_id := some client_id,
                 assigned_at := some now }) := by
  induction pre with
  | nil => simp [claimFirst, hb]
  | cons p ps ih =>
    have hp : ¬ p.status = BotStatus.AVAILABLE := hpre p (by simp)
    simp [claimFirst, hp, ih (fun x hx => hpre x (by simp [hx]))]

/-- C6: `claim_bot` on a pool with at least one AVAILABLE bot picks the first
AVAILABLE bot in creation order and transitions exactly that record to
ASSIGNED owned by the claiming client; on a pool with no AVAILABLE bot it
fails with the distinguishable pool-exhausted error and mutates no record. -/
theorem claim_bot_first_available (client_id : Int) (now : Nat) (db : PoolDB) :
    (∀ pre b post,
      db.bots = pre ++ b :: post →
      (∀ x ∈ pre, x.status ≠ BotStatus.AVAILABLE) →
      b.status = BotStatus.AVAILABLE →
      claim_bot client_id now db =
        (⟨pre ++
            { b with status := BotStatus.ASSIGNED,
                     assigned_to_client_id := some client_id,
                     assigned_at := some now } :: post⟩,
         .ok { b with status := BotStatus.ASSIGNED,
                      assigned_to_client_id := some client_id,
                      assigned_at := some now })) ∧
    ((∀ x ∈ db.bots, x.status ≠ BotStatus.AVAILABLE) →
      claim_bot client_id now db = (db, .error PoolError.exhausted)) := by
  constructor
  · intro pre b post hsplit hpre hb
    simp [claim_bot, hsplit, claimFirst_found client_id now pre b post hpre hb]
  · intro h
    simp [claim_bot, claimFirst_none client_id now db.bots h]

/-- Pool rows used by the C6 witness: one already-assigned bot created before
one available bot. -/
def witnessAssignedBot : BotPool :=
  { bot_token := "enc-tok-a", bot_username := "bot_a", bot_name := "Bot A",
    status := .ASSIGNED, assigned_to_client_id := some 3, assigned_at := some 1 }

/-- The AVAILABLE pool row used by the C6 witness. -/
def witnessAvailableBot : BotPool :=
  { bot_token := "enc-tok-b", bot_username := "bot_b", bot_name := "Bot B",
    status := .AVAILABLE, assigned_to_client_id := none, assigned_at := none }

/-- C6 witness: client 7 claiming from the two-bot pool gets the first
AVAILABLE bot (the second by creation order), transitioned to ASSIGNED. -/
theorem claim_bot_first_available_witness :
    (⟨[witnessAssignedBot, witnessAvailableBot]⟩ : PoolDB).bots =
      [witnessAssignedBot] ++ witnessAvailableBot :: [] ∧
    witnessAvailableBot.status = BotStatus.AVAILABLE ∧
    claim_bot 7 50 ⟨[witnessAssignedBot, witnessAvailableBot]⟩ =
      (⟨[witnessAssignedBot] ++
          { witnessAvailableBot with
              status := BotStatus.ASSIGNED,
              assigned_to_client_id := some 7,
              assigned_at := some 50 } :: []⟩,
       .ok { witnessAvailableBot with
               status := BotStatus.ASSIGNED,
               assigned_to_client_id := some 7,
               assigned_at := some 50 }) :=
  ⟨rfl, rfl,
   (claim_bot_first_available 7 50 ⟨[witnessAssignedBot, witnessAvailableBot]⟩).1
     [witnessAssignedBot] witnessAvailableBot [] rfl (by decide) rfl⟩

/-- Number of open (non-completed) setup sessions a tenant has; the orchestrator
maintains the at-most-one-open-session invariant by checking for an active
session before starting a flow. -/
def activeCount (client_id : Int) (l : List SetupRow) : Nat :=
  (l.filter (fun r => r.client_id == client_id && r.completed_at.isNone)).length

theorem findActive_eq_none_of_zero (client_id : Int) (l : List SetupRow)
    (h : activeCount client_id l = 0) : findActive client_id l = none := by
  induction l with
  | nil => rfl
  | cons r rs ih =>
    cases hr : (r.client_id == client_id && r.completed_at.isNone) with
    | true => simp [activeCount, List.filter_cons, hr] at h
    | false =>
      have hrs : activeCount client_id rs = 0 := by
        simpa [activeCount, List.filter_cons, hr] using h
      simp [findActive, hr, ih hrs]

theorem findActive_updateFirstActive_completed (client_id : Int) (now : Nat)
    (row' : SetupRow) (l : List SetupRow)
    (hcomp : row'.completed_at = some now)
    (hcount : activeCount client_id l ≤ 1) :
    findActive client_id (updateFirstActive client_id row' l) = none := by
  induction l with
  | nil => rfl
  | cons r rs ih =>
    cases hr : (r.client_id == client_id && r.completed_at.isNone) with
    | true =>
      have hrs : activeCount client_id rs = 0 := by
        have h1 := hcount
        simp [activeCount, List.filter_cons, hr] at h1
        simpa [activeCount] using h1
      have hrow' : (row'.client_id == client_id && row'.completed_at.isNone) = false := by
        simp [hcomp]
      simp [updateFirstActive, hr, findActive, hrow',
        findActive_eq_none_of_zero client_id rs hrs]
    | false =>
      have hrs : activeCount client_id rs ≤ 1 := by
        simpa [activeCount, List.filter_cons, hr] using hcount
      simp [updateFirstActive, hr, findActive, ih hrs]

/-- C7: on any active setup session, an input equal case-insensitively to
"cancel", "stop" or "exit" immediately marks the session completed and returns
the cancellation message without running the validator or storing an answer
(only `completed_at` changes on the row); once completed (given the
at-most-one-open-session invariant) no active session remains, so a
subsequent flow-naming setup message starts a fresh session at step 0 instead
of resuming. -/
theorem setup_cancel_completes :
    (∀ (db : SetupDB) (client_id : Int) (message : String) (now : Nat)
        (row : SetupRow),
      findActive client_id db.sessions = some row →
      (["cancel", "stop", "exit"] : List String).contains (lower message) = true →
      handle client_id message now db =
        .ok (⟨updateFirstActive client_id
                { row with completed_at := some now } db.sessions⟩,
             cancel_message)) ∧
    (∀ (client_id : Int) (now : Nat) (row : SetupRow) (l : List SetupRow),
      activeCount client_id l ≤ 1 →
      findActive client_id
        (updateFirstActive client_id { row with completed_at := some now } l) =
          none) ∧
    (∀ (db : SetupDB) (client_id : Int) (message : String) (now : Nat)
        (flow_name : String) (flow : SetupFlowDef),
      findActive client_id db.sessions = none →
      detect_flow message = some flow_name →
      flowClass flow_name = some flow →
      handle client_id message now db =
        .ok (⟨db.sessions ++
                [{ client_id := client_id, flow_name := flow_name,
                   current_step := 0, collected_data_json := none,
                   completed_at := none }]⟩,
             get_step_message flow 0)) := by
  refine ⟨fun db client_id message now row hact hcancel => ?_,
          fun client_id now row l hcount => ?_,
          fun db client_id message now flow_name flow hnone hdet hclass => ?_⟩
  · have hd : lower message = "cancel" ∨ lower message = "stop" ∨
        lower message = "exit" := by
      simpa using hcancel
    rcases hd with h | h | h <;> simp [handle, hact, continue_flow, h]
  · exact findActive_updateFirstActive_completed client_id now _ l rfl hcount
  · simp [handle, hnone, hdet, hclass]

/-- Open voip setup session row used by the C7 witness. -/
def witnessSetupRow : SetupRow :=
  { client_id := 1, flow_name := "voip", current_step := 1,
    collected_data_json := none, completed_at := none }

/-- C7 witness: "CANCEL" at step 1 of an active voip session completes it and
returns the cancellation message. -/
theorem setup_cancel_completes_witness :
    findActive 1 [witnessSetupRow] = some witnessSetupRow ∧
    (["cancel", "stop", "exit"] : List String).contains (lower "CANCEL") = true ∧
    handle 1 "CANCEL" 9 ⟨[witnessSetupRow]⟩ =
      .ok (⟨updateFirstActive 1 { witnessSetupRow with completed_at := some 9 }
              [witnessSetupRow]⟩,
           cancel_message) :=
  ⟨rfl, by decide,
   setup_cancel_completes.1 ⟨[witnessSetupRow]⟩ 1 "CANCEL" 9 witnessSetupRow
     rfl (by decide)⟩

/-- Freshly started voip setup session row as `_start_flow` persists it:
step 0, `collected_data_json` still NULL. -/
def freshVoipRow : SetupRow :=
  { client_id := 1, flow_name := "voip", current_step := 0,
    collected_data_json := none, completed_at := none }

/-- C4 (code bug): starting the voip flow persists a row whose
`collected_data_json` column is NULL; the step-0 answer "have" passes the
validator, and even on the in-request object (transient attribute present) a
valid continue advances the persisted `current_step` but leaves the persisted
`collected_data_json` column NULL — the answer map lives only on the
transient `collected_data` attribute, which the `SetupSession` model does not
declare; and on the next turn, which loads the session fresh from the
database, the continue path raises `AttributeError` instead of storing the
answer, so accumulated answers are never available to subsequent turns. -/
theorem setup_answers_not_persisted :
    handle 1 "i want a phone number" 100 ⟨[]⟩ =
      .ok (⟨[freshVoipRow]⟩, get_step_message voipFlow 0) ∧
    voipFlow.validateStep 0 "have" = none ∧
    continue_flow ⟨freshVoipRow, some []⟩ "have" 200 =
      .ok ({ freshVoipRow with current_step := 1 }, get_step_message voipFlow 1) ∧
    ({ freshVoipRow with current_step := 1 } : SetupRow).collected_data_json =
      none ∧
    handle 1 "have" 200 ⟨[freshVoipRow]⟩ =
      .error "AttributeError: \x27SetupSession\x27 object has no attribute \x27collected_data\x27" :=
  ⟨rfl, rfl, rfl, rfl, rfl⟩

end Alfred
